import Mathlib

/-!
Shallow embedding of the risk-scoring pipeline of
`enhanced-analyzer/gas_pattern_analyzer.go` (package main of the
behavioral analyzer), together with proofs settling the claims about it.

Modelling conventions:
* Go `float64` arithmetic is modelled exactly over `ℚ` (the pipeline only
  adds, multiplies, divides and compares; numeric literals such as 0.85
  become the corresponding rationals).  The one float operation with no
  rational value, `math.Log2` inside `calculateEntropyScore`, is kept as a
  parameter of the pipeline: every theorem below holds uniformly in it.
* Go `big.Int` and `int64` values are modelled by `ℤ`.  `big.Int.Div` is
  Euclidean division (`/` on `ℤ`); Go `int64` division truncates towards
  zero (`Int.tdiv`).
* Operations that can panic at runtime (an out-of-range string slice such
  as `tx.Hash[:10]`, or a method call on the `nil` returned by a failed
  `big.Int.SetString` whose `ok` result the source discards) are modelled
  in the `Option` monad: `none` is a panic.
* `strconv.ParseInt` returns 0 together with an error on malformed input
  and the source always discards the error, so it is modelled as a total
  function defaulting to 0.
* Go map iteration order is unspecified; where the source ranges over a
  map we fix the first- or last-appearance order of the keys.  Every
  concrete input used below makes the modelled result independent of that
  choice.
* `fmt.Sprintf` descriptions are kept up to their string components; the
  printf rendering of embedded floats is not modelled.  The `Evidence`
  map of a flag is not modelled, except that building it can evaluate a
  panicking `Hash[:10]` slice, which is modelled.
-/

namespace WalletTracker

/-- The `Transaction` struct of the Etherscan feed: all fields are raw
strings, parsed at each use site.  `from`/`to` are renamed `fromAddr`/
`toAddr` (`from` is a Lean keyword). -/
structure Transaction where
  blockNumber : String := ""
  timeStamp : String := ""
  hash : String := ""
  fromAddr : String := ""
  toAddr : String := ""
  value : String := ""
  gas : String := ""
  gasPrice : String := ""
  isError : String := ""
  input : String := ""
  contractAddress : String := ""
  gasUsed : String := ""
deriving DecidableEq, Repr, Inhabited

/-- A behavioral flag (`BehavioralFlag` in the source); the `Evidence`
map is not modelled. -/
structure BehavioralFlag where
  type : String
  severity : ℚ
  description : String
deriving DecidableEq, Repr

/-- The `StatisticalScores` record. -/
structure StatisticalScores where
  benfordScore : ℚ
  velocityScore : ℚ
  entropyScore : ℚ
  clusteringScore : ℚ
  temporalAnomaly : ℚ
deriving DecidableEq, Repr

/-- Hacker entries of the known-address database (only the name is read
by the pipeline). -/
structure HackerInfo where
  name : String
deriving DecidableEq, Repr

/-- The `AddressDB` lookup tables, as association lists keyed by
lower-cased address. -/
structure AddressDB where
  exchanges : List (String × String) := []
  mixers : List (String × String) := []
  hackers : List (String × HackerInfo) := []
  contracts : List (String × String) := []
deriving Repr

/-- The `RiskThresholds` configuration record. -/
structure RiskThresholds where
  highValueThreshold : ℚ
  velocityThreshold : ℤ
  gasAnomalyMultiplier : ℚ
  newAddressAgeMinutes : ℤ
  benfordDeviationLimit : ℚ
deriving DecidableEq, Repr

/-- The thresholds installed by `runAnalysis`. -/
def defaultThresholds : RiskThresholds :=
  { highValueThreshold := 10
    velocityThreshold := 20
    gasAnomalyMultiplier := 3
    newAddressAgeMinutes := 60
    benfordDeviationLimit := 3/20 }

/-- The analyzer state (configuration plus known-address database). -/
structure BehavioralAnalyzer where
  riskThresholds : RiskThresholds := defaultThresholds
  knownAddresses : AddressDB := {}

/-- The `EnhancedRiskAnalysis` result record.  The `DetailedAnalysis`
map (`map[string]interface{}`) is modelled as an association list holding
its integer entries; only `transaction_count` is ever read back (inside
`calculateFinalRiskScore`, with a default of 0 when the key is absent),
so only that entry is modelled.  `analyzeAddress` creates the map empty
and writes the entry only after the aggregation call. -/
structure EnhancedRiskAnalysis where
  address : String
  riskScore : ℚ
  confidence : ℚ
  behavioralFlags : List BehavioralFlag
  statisticalScores : StatisticalScores
  realTimeFlags : List String
  recommendations : List String
  detailedAnalysis : List (String × ℤ)

/-- Association-list lookup, modelling a Go map read. -/
def lookupTable {α : Type} (l : List (String × α)) (k : String) : Option α :=
  (l.find? (fun p => p.1 == k)).map (fun p => p.2)

/-- Decimal value of a digit character. -/
def digitVal? (c : Char) : Option ℕ :=
  if c.isDigit then some (c.toNat - Char.toNat '0') else none

/-- Value of a non-empty all-digit character run. -/
def natFromDigits? (ds : List Char) : Option ℕ :=
  if ds = [] then none
  else ds.foldl (fun acc c => do
    let a ← acc
    let d ← digitVal? c
    pure (a * 10 + d)) (some 0)

/-- Base-10 integer syntax shared by Go `big.Int.SetString(s, 10)` and
`strconv.ParseInt(s, 10, 64)`: an optional sign followed by at least
one decimal digit. -/
def intFromChars? : List Char → Option ℤ
  | '-' :: ds => (natFromDigits? ds).map (fun n => -(n : ℤ))
  | '+' :: ds => (natFromDigits? ds).map (fun n => (n : ℤ))
  | ds => (natFromDigits? ds).map (fun n => (n : ℤ))

/-- Go `new(big.Int).SetString(s, 10)`: `none` models `ok = false`
(calling a method on the resulting `nil` pointer panics). -/
def bigInt? (s : String) : Option ℤ :=
  intFromChars? s.data

/-- Go `strconv.ParseInt(s, 10, 64)`: the source always discards the
error, and `ParseInt` returns 0 on malformed input (64-bit overflow is
not modelled; the feed values involved fit). -/
def parseInt64 (s : String) : ℤ :=
  (bigInt? s).getD 0

/-- Go `strings.ToLower` restricted to the ASCII addresses the
pipeline compares. -/
def lowerStr (s : String) : String :=
  ⟨s.data.map Char.toLower⟩

/-- Go `strings.EqualFold` restricted to ASCII. -/
def eqFold (a b : String) : Bool :=
  lowerStr a == lowerStr b

/-- The Go slice `s[:10]` (on a transaction hash or an address): panics
(`none`) when the string is shorter than 10 bytes (the strings involved
are ASCII, so bytes = characters). -/
def slice10 (s : String) : Option String :=
  if 10 ≤ s.length then some (s.take 10) else none

/-- Wei-to-ETH conversion `value / 1e18` (exact in `ℚ`). -/
def weiToEth (v : ℤ) : ℚ :=
  (v : ℚ) / (10 ^ 18 : ℚ)

/-! ## Behavioral feature extractors -/

/-- Hour bucket of a transaction: `timestamp / 3600` in Go `int64`
arithmetic (truncating division). -/
def hourKey (tx : Transaction) : ℤ :=
  (parseInt64 tx.timeStamp).tdiv 3600

/-- Maximum number of transactions falling into one hour bucket
(the max over the `hourlyTxs` map of `analyzeVelocity`). -/
def maxTxPerHour (txs : List Transaction) : ℕ :=
  let keys := txs.map hourKey
  (keys.map (fun k => keys.count k)).foldr max 0

/-- The velocity extractor `analyzeVelocity`. -/
def analyzeVelocity (ba : BehavioralAnalyzer) (txs : List Transaction) :
    Option BehavioralFlag :=
  if txs.length < 2 then none
  else if ba.riskThresholds.velocityThreshold < (maxTxPerHour txs : ℤ) then
    some { type := "high_velocity"
           severity := (maxTxPerHour txs : ℚ) /
             ((ba.riskThresholds.velocityThreshold : ℤ) : ℚ)
           description := "Detected " ++ toString (maxTxPerHour txs) ++
             " transactions in one hour (threshold: " ++
             toString ba.riskThresholds.velocityThreshold ++ ")" }
  else none

/-- The value-concentration extractor `analyzeValueConcentration`.
The outer `Option` is the panic monad: the source parses every value
with `SetString` and dereferences the result unchecked. -/
def analyzeValueConcentration (ba : BehavioralAnalyzer)
    (txs : List Transaction) : Option (Option BehavioralFlag) := do
  let vals ← txs.mapM (fun tx => bigInt? tx.value)
  match txs with
  | [] => pure none
  | t0 :: _ =>
    if 5 ≤ txs.length then
      let recent := (txs.zip vals).take 5
      let recentOutgoing :=
        (recent.map (fun p => if eqFold p.1.toAddr t0.fromAddr then 0 else p.2)).sum
      if ba.riskThresholds.highValueThreshold < weiToEth recentOutgoing then
        pure (some { type := "rapid_drainage"
                     severity := 9/10
                     description := "Rapid outgoing transfers detected" })
      else pure none
    else pure none

/-- The new-address extractor `analyzeNewAddressBehavior`; `now` is the
`time.Now().Unix()` instant of the run. -/
def analyzeNewAddressBehavior (ba : BehavioralAnalyzer) (now : ℤ)
    (txs : List Transaction) : Option (Option BehavioralFlag) :=
  match txs.getLast? with
  | none => pure none
  | some last =>
    let firstTxTime := parseInt64 last.timeStamp
    let ageMinutes := (now - firstTxTime).tdiv 60
    if ageMinutes < ba.riskThresholds.newAddressAgeMinutes then do
      let vals ← txs.mapM (fun tx => bigInt? tx.value)
      if ba.riskThresholds.highValueThreshold < weiToEth vals.sum then
        pure (some { type := "new_address_high_value"
                     severity := 17/20
                     description := "New address transacting high value" })
      else pure none
    else pure none

/-- One step of the second loop of `analyzeGasAnomalies`: the gas price
is re-parsed with the error discarded (panic on failure), and the flag
description slices `tx.Hash[:10]`. -/
def gasAnomalyFlagFor (threshold : ℤ) (tx : Transaction) :
    Option (Option BehavioralFlag) := do
  let g ← bigInt? tx.gasPrice
  if threshold < g then do
    let pre ← slice10 tx.hash
    pure (some { type := "gas_anomaly"
                 severity := 7/10
                 description := "Transaction " ++ pre ++
                   "... used abnormally high gas" })
  else pure none

/-- The gas-anomaly extractor `analyzeGasAnomalies`. -/
def analyzeGasAnomalies (ba : BehavioralAnalyzer) (txs : List Transaction) :
    Option (List BehavioralFlag) :=
  if txs.length < 3 then pure []
  else
    let validGas := txs.filterMap (fun tx =>
      match bigInt? tx.gasPrice with
      | some g => if 0 < g then some g else none
      | none => none)
    if validGas.length = 0 then pure []
    else
      let avgGasPrice := validGas.sum / (validGas.length : ℤ)
      let threshold := avgGasPrice * ba.riskThresholds.gasAnomalyMultiplier.floor
      (txs.mapM (gasAnomalyFlagFor threshold)).map (fun l => l.filterMap id)

/-- The static `suspiciousPatterns` table (keys are pattern names, all
longer than the 10-character method id they are compared against). -/
def suspiciousPatterns : List (String × ℚ) :=
  [("rapid_drainage", 9/10), ("mixer_sequence", 17/20),
   ("flash_loan_attack", 19/20), ("reentrancy_pattern", 9/10),
   ("sandwich_attack", 4/5), ("honeypot_drainage", 17/20),
   ("circular_transfers", 7/10)]

/-- Directed lower-cased `from → to` edges of the transaction set, the
`fromTo` adjacency of `detectCircularPattern`. -/
def lowerEdges (txs : List Transaction) : List (String × String) :=
  txs.filterMap (fun tx =>
    let f := lowerStr tx.fromAddr
    let t := lowerStr tx.toAddr
    if f ≠ "" ∧ t ≠ "" then some (f, t) else none)

/-- Successor list of a node in the directed edge list. -/
def neighborsOf (edges : List (String × String)) (n : String) : List String :=
  (edges.filter (fun e => e.1 == n)).map (fun e => e.2)

/-- The mutable DFS state of `detectCircularPattern`: the `visited` set
and the recursion-stack set. -/
structure DfsState where
  visited : List String
  recStack : List String

/-- The recursive closure `hasCycle`: visits `node`, explores its
successors (early exit on a detected back edge), then pops `node` from
the recursion stack.  `fuel` bounds the recursion depth; the caller
passes more fuel than there are reachable nodes, so the 0 case is
unreachable (it conservatively reports no cycle). -/
def dfsVisit (edges : List (String × String)) :
    ℕ → String → DfsState → Bool × DfsState
  | 0, _, st => (false, st)
  | fuel + 1, node, st =>
    let st1 : DfsState := ⟨node :: st.visited, node :: st.recStack⟩
    let res := (neighborsOf edges node).foldl
      (fun (acc : Bool × DfsState) nb =>
        if acc.1 then acc
        else if acc.2.visited.contains nb then
          if acc.2.recStack.contains nb then (true, acc.2) else acc
        else dfsVisit edges fuel nb acc.2)
      (false, st1)
    if res.1 then res
    else (false, ⟨res.2.visited, res.2.recStack.erase node⟩)

/-- The cycle detector `detectCircularPattern`: DFS from every (source)
node of the `from → to` multigraph; guarded by `len(txs) < 4`.  The Go
map iteration over roots is fixed to first-appearance order of the
`from` addresses (the concrete inputs used below give the same answer
for every order). -/
def detectCircularPattern (txs : List Transaction) : Bool :=
  if txs.length < 4 then false
  else
    let edges := lowerEdges txs
    let nodes := (edges.map (fun e => e.1)).foldl
      (fun acc a => if acc.contains a then acc else acc ++ [a]) []
    let fuel := 2 * edges.length + 2
    (nodes.foldl
      (fun (acc : Bool × DfsState) n =>
        if acc.1 then acc
        else if acc.2.visited.contains n then acc
        else dfsVisit edges fuel n acc.2)
      (false, ⟨[], []⟩)).1

/-- The interaction-pattern extractor `analyzeInteractionPatterns`:
suspicious-method flags (per transaction, in feed order), then one
mixer flag per distinct lower-cased counterparty found in the mixers
table, then at most one circular-pattern flag. -/
def analyzeInteractionPatterns (ba : BehavioralAnalyzer)
    (txs : List Transaction) : List BehavioralFlag :=
  let methodFlags := txs.filterMap (fun tx =>
    if 10 ≤ tx.input.length then
      match lookupTable suspiciousPatterns (tx.input.take 10) with
      | some _ => some { type := "suspicious_method"
                         severity := 4/5
                         description := "Called suspicious method" }
      | none => none
    else none)
  let tos := (txs.filterMap (fun tx =>
    if tx.toAddr ≠ "" then some (lowerStr tx.toAddr) else none)).foldl
      (fun acc a => if acc.contains a then acc else acc ++ [a]) []
  let mixerFlags := tos.filterMap (fun a =>
    (lookupTable ba.knownAddresses.mixers a).map (fun name =>
      { type := "mixer_interaction"
        severity := 17/20
        description := "Interacted with known mixer: " ++ name }))
  let circFlags :=
    if detectCircularPattern txs then
      [{ type := "circular_pattern"
         severity := 3/4
         description := "Detected circular transaction pattern (possible money laundering)" }]
    else []
  methodFlags ++ mixerFlags ++ circFlags

/-- Feed-adjacent timestamp gaps `time[i-1] - time[i]`, keeping only the
strictly positive ones (the shared gap computation of
`analyzeTimePatterns` and `calculateTemporalAnomalyScore`). -/
def timeGaps (txs : List Transaction) : List ℤ :=
  ((txs.zip txs.tail).map
    (fun p => parseInt64 p.1.timeStamp - parseInt64 p.2.timeStamp)).filter
    (fun g => 0 < g)

/-- The helper `calculateVariance` (population variance). -/
def calculateVariance (values : List ℤ) : ℚ :=
  if values.length = 0 then 0
  else
    let mean : ℚ := (values.sum : ℚ) / (values.length : ℚ)
    ((values.map (fun v => ((v : ℚ) - mean) ^ 2)).sum) / (values.length : ℚ)

/-- The time-pattern extractor `analyzeTimePatterns`.  In Go the burst
ratio on an empty gap list is `0.0/0.0 = NaN`, and `NaN > 0.5` is false;
in `ℚ`, `0/0 = 0 > 1/2` is false as well, the same outcome. -/
def analyzeTimePatterns (txs : List Transaction) : List BehavioralFlag :=
  if txs.length < 3 then []
  else
    let gaps := timeGaps txs
    let autoFlags :=
      if 5 ≤ gaps.length ∧ calculateVariance gaps < 10 then
        [{ type := "automated_behavior"
           severity := 3/5
           description := "Transaction timing suggests automated/bot behavior" }]
      else []
    let burstCount := (gaps.filter (fun g => g < 60)).length
    let burstFlags :=
      if (1 : ℚ)/2 < (burstCount : ℚ) / (gaps.length : ℚ) then
        [{ type := "burst_pattern"
           severity := 7/10
           description := "Detected burst transaction pattern" }]
      else []
    autoFlags ++ burstFlags

/-- The extractor pipeline `analyzeBehavioralPatterns`, in source order:
velocity, value concentration, new-address, gas anomalies, interaction
patterns, time patterns. -/
def analyzeBehavioralPatterns (ba : BehavioralAnalyzer) (now : ℤ)
    (txs : List Transaction) : Option (List BehavioralFlag) := do
  let conc ← analyzeValueConcentration ba txs
  let newAddr ← analyzeNewAddressBehavior ba now txs
  let gasFlags ← analyzeGasAnomalies ba txs
  pure ((analyzeVelocity ba txs).toList ++ conc.toList ++ newAddr.toList ++
    gasFlags ++ analyzeInteractionPatterns ba txs ++ analyzeTimePatterns txs)

/-! ## Gas-specific attack detectors (enhanced gas module) -/

/-- The `dexRouters` table of `detectFrontRunning`. -/
def dexRouters : List String :=
  ["0x7a250d5630b4cf539739df2c5dacb4c659f2488d",
   "0xe592427a0aece92de3edee1f18e0157c05861564",
   "0xd9e1ce17f2641f24ae83637ab66a2cca9c378b9f"]

/-- One step of the loop of `detectFrontRunning` for the indexed
transaction `itx`: the gas prices (of the transaction and, inside the
victim check, of its feed neighbors) are parsed with the error
discarded, and the flag description slices `tx.Hash[:10]`. -/
def frontRunFlagFor (txs : List Transaction) (p90 : ℤ) (itx : ℕ × Transaction) :
    Option (Option BehavioralFlag) := do
  let g ← bigInt? itx.2.gasPrice
  if p90 * 10 < g then do
    let isDEX := dexRouters.contains (lowerStr itx.2.toAddr)
    let victimFound ←
      if 0 < itx.1 ∧ itx.1 < txs.length - 1 then do
        let pg ← bigInt? (txs.getD (itx.1 - 1) default).gasPrice
        let ng ← bigInt? (txs.getD (itx.1 + 1) default).gasPrice
        pure (decide (pg < p90) || decide (ng < p90))
      else pure false
    if isDEX || victimFound then do
      let pre ← slice10 itx.2.hash
      pure (some { type := "front_running_suspected"
                   severity := 17/20
                   description := "Potential front-running: " ++ pre ++
                     "... used high gas" })
    else pure none
  else pure none

/-- The front-running detector `detectFrontRunning`. -/
def detectFrontRunning (txs : List Transaction) (p90 : ℤ) :
    Option (List BehavioralFlag) :=
  (txs.enum.mapM (frontRunFlagFor txs p90)).map (fun l => l.filterMap id)

/-- The sliding windows of three feed-consecutive transactions scanned
by `detectSandwichAttacks`. -/
def windowTriples : List Transaction → List (Transaction × Transaction × Transaction)
  | t1 :: t2 :: t3 :: rest => (t1, t2, t3) :: windowTriples (t2 :: t3 :: rest)
  | _ => []

/-- One window of `detectSandwichAttacks`: all three gas prices are
parsed (error discarded) before the checks; building the evidence of an
emitted flag slices all three transaction hashes. -/
def sandwichFlagFor (p90 : ℤ) (w : Transaction × Transaction × Transaction) :
    Option (Option BehavioralFlag) := do
  let g1 ← bigInt? w.1.gasPrice
  let g2 ← bigInt? w.2.1.gasPrice
  let g3 ← bigInt? w.2.2.gasPrice
  if p90 * 5 < g1 ∧ p90 * 5 < g3 ∧ g2 < p90 * 2 then
    if eqFold w.1.fromAddr w.2.2.fromAddr then
      if eqFold w.1.toAddr w.2.1.toAddr ∧ eqFold w.2.1.toAddr w.2.2.toAddr then do
        let _ ← slice10 w.1.hash
        let _ ← slice10 w.2.1.hash
        let _ ← slice10 w.2.2.hash
        pure (some { type := "sandwich_attack"
                     severity := 9/10
                     description := "Sandwich attack pattern detected" })
      else pure none
    else pure none
  else pure none

/-- The sandwich-attack detector `detectSandwichAttacks`. -/
def detectSandwichAttacks (txs : List Transaction) (p90 : ℤ) :
    Option (List BehavioralFlag) :=
  ((windowTriples txs).mapM (sandwichFlagFor p90)).map (fun l => l.filterMap id)

/-! ## Statistical analyzers -/

/-- The theoretical Benford distribution table `benfordExpected`. -/
def benfordExpected : List ℚ :=
  [301/1000, 176/1000, 125/1000, 97/1000, 79/1000, 67/1000, 58/1000, 51/1000, 46/1000]

/-- First significant decimal digit of a transaction value as an index
in 0‥8, mirroring `calculateBenfordScore`: parse the value (checked
here, skipping failures), skip zero, then look at the first character of
its decimal representation (a negative value starts with a minus sign
and is skipped, as in the source). -/
def firstDigitIndex (tx : Transaction) : Option ℕ :=
  match bigInt? tx.value with
  | none => none
  | some v =>
    if v = 0 then none
    else
      match (toString v).data with
      | [] => none
      | c :: _ => if '1' ≤ c ∧ c ≤ '9' then some (c.toNat - '1'.toNat) else none

/-- The per-digit tally `digitCounts[d]` of `calculateBenfordScore`. -/
def digitCount (txs : List Transaction) (d : ℕ) : ℕ :=
  txs.countP (fun tx => firstDigitIndex tx == some d)

/-- The `totalCount` tally of `calculateBenfordScore` (a transaction is
counted exactly when it contributes a digit tally). -/
def benfordTotalCount (txs : List Transaction) : ℕ :=
  txs.countP (fun tx => (firstDigitIndex tx).isSome)

/-- The Benford scorer `calculateBenfordScore`. -/
def calculateBenfordScore (ba : BehavioralAnalyzer) (txs : List Transaction) : ℚ :=
  if txs.length < 10 then 0
  else
    let total := benfordTotalCount txs
    if total < 10 then 0
    else
      let chiSquare := ((List.range 9).map (fun i =>
        let observed : ℚ := (digitCount txs i : ℚ) / (total : ℚ)
        let expected := benfordExpected.getD i 0
        if 0 < expected then (observed - expected) ^ 2 / expected else 0)).sum
      min (chiSquare / ba.riskThresholds.benfordDeviationLimit) 1

/-- The velocity scorer `calculateVelocityScore`. -/
def calculateVelocityScore (txs : List Transaction) : ℚ :=
  if txs.length < 2 then 0
  else
    let velocities := (txs.zip txs.tail).filterMap (fun p =>
      let d : ℚ := ((parseInt64 p.1.timeStamp - parseInt64 p.2.timeStamp : ℤ) : ℚ)
      if 0 < d ∧ d < 3600 then some (3600 / d) else none)
    if velocities.length = 0 then 0
    else min ((velocities.foldl max 0) / 20) 1

/-- Undirected neighbor set of a node in the interaction graph of
`calculateClusteringScore` (the source inserts both directions of every
edge into the `neighbors` map; a self loop makes a node its own
neighbor, as in the source). -/
def undirNbrs (es : List (String × String)) (n : String) : List String :=
  (es.filterMap (fun e =>
    if e.1 == n then some e.2 else if e.2 == n then some e.1 else none)).dedup

/-- The triangle tally of `calculateClusteringScore`: the number of
unordered pairs of listed neighbors that are themselves adjacent. -/
def countAdjPairs (es : List (String × String)) : List String → ℕ
  | [] => 0
  | a :: rest =>
    (rest.filter (fun b => (undirNbrs es a).contains b)).length + countAdjPairs es rest

/-- The clustering scorer `calculateClusteringScore`; averaging over
nodes is a sum over the node set, so the Go map iteration order is
immaterial and the node set is fixed to dedup order. -/
def calculateClusteringScore (txs : List Transaction) : ℚ :=
  let es := lowerEdges txs
  let nodes := ((es.map (fun e => e.1)) ++ (es.map (fun e => e.2))).dedup
  let contribs := nodes.filterMap (fun n =>
    let nl := undirNbrs es n
    if nl.length < 2 then none
    else
      let triangles := countAdjPairs es nl
      let possible := nl.length * (nl.length - 1) / 2
      if 0 < possible then some ((triangles : ℚ) / (possible : ℚ)) else none)
  if contribs.length = 0 then 0
  else contribs.sum / (contribs.length : ℚ)

/-- The temporal scorer `calculateTemporalAnomalyScore`.  The source
tests `|gap - mean| > 2·stdDev` with `stdDev = √variance`; both sides
are non-negative, so the test is equivalent to
`(gap - mean)² > 4·variance`, which keeps the embedding in `ℚ`. -/
def calculateTemporalAnomalyScore (txs : List Transaction) : ℚ :=
  if txs.length < 3 then 0
  else
    let gaps := (timeGaps txs).map (fun g => (g : ℚ))
    if gaps.length < 2 then 0
    else
      let mean := gaps.sum / (gaps.length : ℚ)
      let variance := (gaps.map (fun g => (g - mean) ^ 2)).sum / (gaps.length : ℚ)
      let anomalyCount := (gaps.filter (fun g => 4 * variance < (g - mean) ^ 2)).length
      (anomalyCount : ℚ) / (gaps.length : ℚ)

/-- The statistical pass `performStatisticalAnalysis`.  The entropy
scorer (`calculateEntropyScore` in the source) computes a Shannon
entropy with `math.Log2`, whose value has no exact rational embedding;
it is therefore a parameter here, and every theorem below holds for
every choice of it. -/
def performStatisticalAnalysis (entropyScore : List Transaction → ℚ)
    (ba : BehavioralAnalyzer) (txs : List Transaction) : StatisticalScores :=
  { benfordScore := calculateBenfordScore ba txs
    velocityScore := calculateVelocityScore txs
    entropyScore := entropyScore txs
    clusteringScore := calculateClusteringScore txs
    temporalAnomaly := calculateTemporalAnomalyScore txs }

/-! ## Real-time checks, aggregation, recommendations -/

/-- The label lookup `checkEtherscanLabels`. -/
def checkEtherscanLabels (ba : BehavioralAnalyzer) (address : String) : String :=
  match lookupTable ba.knownAddresses.exchanges address with
  | some name => "Exchange: " ++ name
  | none =>
    match lookupTable ba.knownAddresses.mixers address with
    | some name => "Mixer: " ++ name
    | none =>
      match lookupTable ba.knownAddresses.hackers address with
      | some info => "Known Hacker: " ++ info.name
      | none =>
        match lookupTable ba.knownAddresses.contracts address with
        | some name => "Contract: " ++ name
        | none => ""

/-- The hacker-counterparty scan `checkSuspiciousInteractions`: distinct
lower-cased counterparties in first-appearance order (the source keeps a
`checked` set while iterating the feed); a hit renders `to[:10]`, which
panics on a short address. -/
def checkSuspiciousInteractions (ba : BehavioralAnalyzer)
    (txs : List Transaction) : Option (List String) :=
  let tos := (txs.filterMap (fun tx =>
    if lowerStr tx.toAddr ≠ "" then some (lowerStr tx.toAddr) else none)).foldl
      (fun acc a => if acc.contains a then acc else acc ++ [a]) []
  let scanned : Option (List (Option String)) := tos.mapM (fun t =>
    match lookupTable ba.knownAddresses.hackers t with
    | some info => (slice10 t).map (fun pre =>
        some ("Interacted with known hacker: " ++ info.name ++ " (" ++ pre ++ "...)"))
    | none => pure none)
  scanned.map (fun l => l.filterMap id)

/-- The real-time risk pass `checkRealTimeRisks`. -/
def checkRealTimeRisks (ba : BehavioralAnalyzer) (txs : List Transaction) :
    Option (List String) := do
  let failedCount := (txs.filter (fun tx => tx.isError == "1")).length
  let failRisks :=
    if txs.length / 4 < failedCount then ["High failure rate"] else []
  let contractsCreated := (txs.filter (fun tx => tx.contractAddress ≠ "")).length
  let contractRisks :=
    if 0 < contractsCreated then ["Created contracts"] else []
  let susp ← checkSuspiciousInteractions ba txs
  pure (failRisks ++ contractRisks ++ susp)

/-- The aggregator `calculateFinalRiskScore`, returning the pair
(risk score, confidence).  The stat-weight sum ranges over the
`statWeights` map, which is commutative, so the map order is
immaterial.  The transaction count is read from the
`DetailedAnalysis["transaction_count"]` entry of the argument record
through an ok-guard that leaves it 0 when the key is absent — which it
always is at the pipeline's call site, since `analyzeAddress` writes
the entry only after this call returns. -/
def calculateFinalRiskScore (a : EnhancedRiskAnalysis) : ℚ × ℚ :=
  let behScore := (a.behavioralFlags.map (fun f => f.severity * f.severity)).sum
  let behWeight := (a.behavioralFlags.map (fun f => f.severity)).sum
  let statScore :=
    a.statisticalScores.benfordScore * (7/10) +
    a.statisticalScores.velocityScore * (4/5) +
    a.statisticalScores.entropyScore * (1/2) +
    a.statisticalScores.clusteringScore * (3/5) +
    a.statisticalScores.temporalAnomaly * (7/10)
  let statWeight : ℚ := 7/10 + 4/5 + 1/2 + 3/5 + 7/10
  let rtScore : ℚ :=
    if a.realTimeFlags.length ≠ 0 then (a.realTimeFlags.length : ℚ) * (1/5) * (9/10) else 0
  let rtWeight : ℚ := if a.realTimeFlags.length ≠ 0 then 9/10 else 0
  let totalScore := behScore + statScore + rtScore
  let totalWeight := behWeight + statWeight + rtWeight
  let finalScore := if 0 < totalWeight then totalScore / totalWeight else 0
  let txCount := (lookupTable a.detailedAnalysis "transaction_count").getD 0
  let confidence :=
    min ((a.behavioralFlags.length : ℚ) / 5) 1 * (1/2) +
    min ((txCount : ℚ) / 50) 1 * (1/2)
  (min finalScore 1, confidence)

/-- The base recommendation strings of `generateRecommendations`
(modelled up to printf formatting; apostrophes are spelled out). -/
def recCritical1 : String :=
  "⚠️  CRITICAL: This address shows multiple high-risk indicators. Avoid interaction."

/-- Second critical-tier recommendation string. -/
def recCritical2 : String :=
  "📞 Report to relevant authorities if you have been affected."

/-- First high-tier recommendation string. -/
def recHigh1 : String :=
  "⚡ HIGH RISK: Exercise extreme caution with this address."

/-- Second high-tier recommendation string. -/
def recHigh2 : String :=
  "🔍 Perform additional due diligence before any interaction."

/-- First medium-tier recommendation string. -/
def recMedium1 : String :=
  "⚠️  MEDIUM RISK: Some suspicious patterns detected."

/-- Second medium-tier recommendation string. -/
def recMedium2 : String :=
  "💡 Monitor this address closely for further activity."

/-- First low-tier recommendation string. -/
def recLow1 : String :=
  "ℹ️  LOW RISK: Minor anomalies detected."

/-- Second low-tier recommendation string. -/
def recLow2 : String :=
  "✅ Generally safe but maintain standard precautions."

/-- Minimal-tier recommendation string. -/
def recMinimal : String :=
  "✅ MINIMAL RISK: No significant suspicious patterns detected."

/-- Follow-up recommendation for a mixer-interaction flag. -/
def recMixer : String :=
  "🌀 Consider blockchain analysis tools to trace fund origins."

/-- Follow-up recommendation for a high-velocity flag. -/
def recVelocity : String :=
  "⏱️  Monitor for potential automated attack patterns."

/-- Follow-up recommendation for a new-address-high-value flag. -/
def recNewAddress : String :=
  "🆕 Verify the legitimacy of this newly active address."

/-- The recommendation generator `generateRecommendations`: base block
chosen by the strict if/else-if chain on the risk score, then one
follow-up per flag whose type matches the switch. -/
def generateRecommendations (a : EnhancedRiskAnalysis) : List String :=
  let base :=
    if (4 : ℚ)/5 < a.riskScore then [recCritical1, recCritical2]
    else if (3 : ℚ)/5 < a.riskScore then [recHigh1, recHigh2]
    else if (2 : ℚ)/5 < a.riskScore then [recMedium1, recMedium2]
    else if (1 : ℚ)/5 < a.riskScore then [recLow1, recLow2]
    else [recMinimal]
  base ++ a.behavioralFlags.filterMap (fun f =>
    if f.type = "mixer_interaction" then some recMixer
    else if f.type = "high_velocity" then some recVelocity
    else if f.type = "new_address_high_value" then some recNewAddress
    else none)

/-- The top-level analysis `analyzeAddress` (with the transaction fetch
abstracted into the `txs` argument and `time.Now().Unix()` into `now`):
early return on an empty history, otherwise labels, behavioral flags,
statistical scores, real-time risks, aggregation, recommendations, and
only then the detailed-analysis entries.  The `DetailedAnalysis` map is
created empty and its `transaction_count` entry is written at step 8,
after `calculateFinalRiskScore` has already read the map at step 6. -/
def analyzeAddress (entropyScore : List Transaction → ℚ) (ba : BehavioralAnalyzer)
    (address : String) (txs : List Transaction) (now : ℤ) :
    Option EnhancedRiskAnalysis :=
  if txs.length = 0 then
    some { address := address
           riskScore := 1/10
           confidence := 1/10
           behavioralFlags := []
           statisticalScores := ⟨0, 0, 0, 0, 0⟩
           realTimeFlags := ["No transaction history found"]
           recommendations := []
           detailedAnalysis := [] }
  else do
    let labels := checkEtherscanLabels ba address
    let labelFlags := if labels ≠ "" then ["Etherscan Label: " ++ labels] else []
    let bflags ← analyzeBehavioralPatterns ba now txs
    let stats := performStatisticalAnalysis entropyScore ba txs
    let rtRisks ← checkRealTimeRisks ba txs
    let a0 : EnhancedRiskAnalysis :=
      { address := address
        riskScore := 0
        confidence := 0
        behavioralFlags := bflags
        statisticalScores := stats
        realTimeFlags := labelFlags ++ rtRisks
        recommendations := []
        detailedAnalysis := [] }
    let rc := calculateFinalRiskScore a0
    let a1 := { a0 with riskScore := rc.1, confidence := rc.2 }
    let a2 := { a1 with recommendations := generateRecommendations a1 }
    pure { a2 with detailedAnalysis := [("transaction_count", (txs.length : ℤ))] }

/-- The severity sort applied by `displayResults` before rendering:
`sort.Slice` with less-relation `s[i].Severity > s[j].Severity`.  Go's
`sort.Slice` is unstable, but any sort correct for that relation yields
a list non-increasing in severity; it is modelled by a mergesort. -/
def sortFlagsBySeverity (fs : List BehavioralFlag) : List BehavioralFlag :=
  fs.mergeSort (fun a b => decide (b.severity ≤ a.severity))

/-! ## Spec-side definitions (written from the specification text, to be
compared with the code-side definitions above) -/

/-- The analyzer as configured by `runAnalysis` (default thresholds,
empty known-address database). -/
def defaultAnalyzer : BehavioralAnalyzer := {}

/-- Clamp to the unit interval, as the spec words "clamped to [0,1]". -/
def clamp01 (x : ℚ) : ℚ := max 0 (min x 1)

/-- Spec-side total weighted score: each behavioral flag contributes
severity squared, the five statistical scores contribute at the fixed
weights 0.7 / 0.8 / 0.5 / 0.6 / 0.7, and real-time flags, when any are
present, add 0.2 per flag at the single weight 0.9. -/
def specTotalWeightedScore (a : EnhancedRiskAnalysis) : ℚ :=
  (a.behavioralFlags.map (fun f => f.severity * f.severity)).sum +
  ((7/10) * a.statisticalScores.benfordScore +
   (4/5) * a.statisticalScores.velocityScore +
   (1/2) * a.statisticalScores.entropyScore +
   (3/5) * a.statisticalScores.clusteringScore +
   (7/10) * a.statisticalScores.temporalAnomaly) +
  (if a.realTimeFlags.length ≠ 0 then
     (9/10) * ((1/5) * (a.realTimeFlags.length : ℚ)) else 0)

/-- Spec-side total weight: each behavioral flag weighs its own
severity, the statistical weights always count, and the single
real-time weight 0.9 counts when any real-time flag is present. -/
def specTotalWeight (a : EnhancedRiskAnalysis) : ℚ :=
  (a.behavioralFlags.map (fun f => f.severity)).sum +
  (7/10 + 4/5 + 1/2 + 3/5 + 7/10) +
  (if a.realTimeFlags.length ≠ 0 then (9/10 : ℚ) else 0)

/-- Spec-side confidence
`0.5 * min(flagCount/5, 1) + 0.5 * min(transactionCount/50, 1)`. -/
def specConfidence (flagCount txCount : ℕ) : ℚ :=
  (1/2) * min ((flagCount : ℚ) / 5) 1 + (1/2) * min ((txCount : ℚ) / 50) 1

/-- Spec-side recommendation base block, with the strict tier
thresholds the code actually uses (amended claim C6): critical >0.8,
high >0.6, medium >0.4, low >0.2 and otherwise minimal; two fixed
strings per tier, one for minimal. -/
def recTierBlock (riskScore : ℚ) : List String :=
  if (4 : ℚ)/5 < riskScore then [recCritical1, recCritical2]
  else if (3 : ℚ)/5 < riskScore then [recHigh1, recHigh2]
  else if (2 : ℚ)/5 < riskScore then [recMedium1, recMedium2]
  else if (1 : ℚ)/5 < riskScore then [recLow1, recLow2]
  else [recMinimal]

/-- Spec-side follow-up recommendation of one flag occurrence: only the
three listed types contribute. -/
def recFollowUp (f : BehavioralFlag) : Option String :=
  if f.type = "mixer_interaction" then some recMixer
  else if f.type = "high_velocity" then some recVelocity
  else if f.type = "new_address_high_value" then some recNewAddress
  else none

/-- Spec-side recommendation list (amended claim C6): tier block first,
then one follow-up per flag occurrence, in flag order. -/
def specRecommendations (a : EnhancedRiskAnalysis) : List String :=
  recTierBlock a.riskScore ++ a.behavioralFlags.filterMap recFollowUp

/-! ## Concrete inputs used by counterexamples and witnesses -/

/-- Transaction constructor for the concrete inputs below. -/
def mkTx (ts fr t v g h : String) : Transaction :=
  { timeStamp := ts, fromAddr := fr, toAddr := t, value := v,
    gasPrice := g, hash := h, isError := "0" }

/-- One transaction of the high-velocity feed. -/
def velTx : Transaction := mkTx "1000" "0xa" "0xb" "0" "5" "0xhash000001"

/-- Twenty-one transactions inside a single hour bucket (velocity
threshold is 20). -/
def velTxs : List Transaction :=
  [velTx, velTx, velTx, velTx, velTx, velTx, velTx, velTx, velTx, velTx, velTx,
   velTx, velTx, velTx, velTx, velTx, velTx, velTx, velTx, velTx, velTx]

/-- The flag the velocity extractor emits on `velTxs`. -/
def velFlag : BehavioralFlag :=
  { type := "high_velocity", severity := 21/20,
    description := "Detected 21 transactions in one hour (threshold: 20)" }

/-- Three transactions whose from→to edges are A→B, B→C, C→A. -/
def cycleTxs3 : List Transaction :=
  [mkTx "100" "0xa" "0xb" "0" "5" "0xhash000001",
   mkTx "200" "0xb" "0xc" "0" "5" "0xhash000002",
   mkTx "300" "0xc" "0xa" "0" "5" "0xhash000003"]

/-- The same cycle plus a fourth transaction repeating the A→B edge,
so the `len(txs) < 4` guard passes. -/
def cycleTxs4 : List Transaction :=
  cycleTxs3 ++ [mkTx "400" "0xa" "0xb" "0" "5" "0xhash000004"]

/-- Sandwich front transaction: high gas (100 > 5·p90 for p90 = 10). -/
def sandT1 : Transaction := mkTx "100" "0xaaa" "0xccc" "0" "100" "0xhash000001"

/-- Sandwich middle transaction: normal gas, same `to`, but a `from`
that differs from the outer transactions. -/
def sandT2 : Transaction := mkTx "90" "0xbbb" "0xccc" "0" "5" "0xhash000002"

/-- Sandwich back transaction: high gas, same `from` as the front. -/
def sandT3 : Transaction := mkTx "80" "0xaaa" "0xccc" "0" "100" "0xhash000003"

/-- Six transactions, newest first, 30 seconds apart: five equal gaps,
all under a minute, firing both time-pattern flags. -/
def burstTxs : List Transaction :=
  [mkTx "1150" "0xa" "0xb" "0" "5" "0xhash000001",
   mkTx "1120" "0xa" "0xb" "0" "5" "0xhash000002",
   mkTx "1090" "0xa" "0xb" "0" "5" "0xhash000003",
   mkTx "1060" "0xa" "0xb" "0" "5" "0xhash000004",
   mkTx "1030" "0xa" "0xb" "0" "5" "0xhash000005",
   mkTx "1000" "0xa" "0xb" "0" "5" "0xhash000006"]

/-- A transaction whose gas price does not parse, with a long hash. -/
def badGasTx : Transaction := mkTx "100" "0xa" "0xb" "0" "xyz" "0xhash000001"

/-- A harmless parseable transaction with a long hash. -/
def goodTx : Transaction := mkTx "100" "0xa" "0xb" "0" "5" "0xhash000002"

/-- Three transactions, all hashes ≥ 10 characters, one gas price
unparsable: the gas extractors panic on it. -/
def panicGasTxs : List Transaction := [badGasTx, goodTx, goodTx]

/-- A threshold-crossing transaction whose hash has fewer than 10
characters (ten peers at gas 50 put the mean at 63 and the anomaly
threshold at 189 < 200). -/
def shortHashTx : Transaction := mkTx "100" "0xa" "0xb" "0" "200" "0xh"

/-- Eleven parseable transactions where the one anomalous transaction
has a short hash: the `Hash[:10]` slice panics on it. -/
def panicHashTxs : List Transaction :=
  shortHashTx :: List.replicate 10 (mkTx "100" "0xa" "0xb" "0" "50" "0xhash000002")

/-- Three well-formed transactions (parseable gas, long hashes). -/
def okGasTxs : List Transaction := [goodTx, goodTx, goodTx]

/-- Sample analysis record in the state the pipeline hands to the
aggregator (detailed-analysis map still empty), exercising every score
contribution: one flag, five nonzero statistical scores, one real-time
flag. -/
def aggrSample : EnhancedRiskAnalysis :=
  { address := "0xme", riskScore := 0, confidence := 0
    behavioralFlags := [⟨"gas_anomaly", 1/2, "d"⟩]
    statisticalScores := ⟨1/10, 2/10, 3/10, 4/10, 5/10⟩
    realTimeFlags := ["Created contracts"]
    recommendations := []
    detailedAnalysis := [] }

/-- Analysis record with risk score exactly 0.8 and no flags. -/
def tier08Analysis : EnhancedRiskAnalysis :=
  { address := "0xme", riskScore := 4/5, confidence := 0
    behavioralFlags := []
    statisticalScores := ⟨0, 0, 0, 0, 0⟩
    realTimeFlags := [], recommendations := [], detailedAnalysis := [] }

/-- Analysis record with two mixer-interaction flags (the extractor
emits one per distinct mixer counterparty, so several can occur). -/
def dupMixerAnalysis : EnhancedRiskAnalysis :=
  { tier08Analysis with
    riskScore := 0
    behavioralFlags :=
      [⟨"mixer_interaction", 17/20, "m1"⟩, ⟨"mixer_interaction", 17/20, "m2"⟩] }

/-- A transaction carrying only a value (enough for the Benford scorer). -/
def benfordTx (v : String) : Transaction := { value := v }

/-- One thousand valued transactions whose first-digit tallies are
exactly 1000 times the Benford table. -/
def benfordUniformTxs : List Transaction :=
  List.replicate 301 (benfordTx "1") ++ List.replicate 176 (benfordTx "2") ++
  List.replicate 125 (benfordTx "3") ++ List.replicate 97 (benfordTx "4") ++
  List.replicate 79 (benfordTx "5") ++ List.replicate 67 (benfordTx "6") ++
  List.replicate 58 (benfordTx "7") ++ List.replicate 51 (benfordTx "8") ++
  List.replicate 46 (benfordTx "9")

/-! ## Helper lemmas -/

/-- A `mapM` over `Option` succeeds when every step succeeds. -/
theorem mapM_isSome {α β : Type} (f : α → Option β) (l : List α)
    (h : ∀ a ∈ l, (f a).isSome) : (l.mapM f).isSome := by
  rw [← List.mapM'_eq_mapM]
  induction l with
  | nil => rfl
  | cons a t ih =>
    rw [List.mapM'_cons]
    obtain ⟨b, hb⟩ := Option.isSome_iff_exists.1 (h a (List.mem_cons_self a t))
    obtain ⟨bs, hbs⟩ := Option.isSome_iff_exists.1
      (ih (fun x hx => h x (List.mem_cons_of_mem a hx)))
    simp [hb, hbs]

/-- Every element produced by a successful `mapM` over `Option` comes
from some input element. -/
theorem exists_of_mapM_some {α β : Type} (f : α → Option β) (l : List α)
    (l' : List β) (h : l.mapM f = some l') :
    ∀ b ∈ l', ∃ a ∈ l, f a = some b := by
  rw [← List.mapM'_eq_mapM] at h
  induction l generalizing l' with
  | nil =>
    intro b hb
    rw [show List.mapM' f [] = pure [] from rfl] at h
    cases h
    simp at hb
  | cons a t ih =>
    rw [List.mapM'_cons] at h
    cases hfa : f a with
    | none => rw [hfa] at h; simp at h
    | some x =>
      rw [hfa] at h
      cases hml : List.mapM' f t with
      | none => rw [hml] at h; simp at h
      | some xs =>
        rw [hml] at h
        have h' : x :: xs = l' := by simpa using h
        subst h'
        intro b hb
        rcases List.mem_cons.1 hb with rfl | hb2
        · exact ⟨a, List.mem_cons_self a t, hfa⟩
        · obtain ⟨a2, ha2, hfa2⟩ := ih xs hml b hb2
          exact ⟨a2, List.mem_cons_of_mem a ha2, hfa2⟩

/-- Feed in non-decreasing timestamp order produces no positive gaps. -/
theorem timeGaps_eq_nil (l : List Transaction)
    (h : List.Chain' (fun a b =>
      parseInt64 a.timeStamp ≤ parseInt64 b.timeStamp) l) :
    timeGaps l = [] := by
  induction l with
  | nil => rfl
  | cons a t ih =>
    cases t with
    | nil => rfl
    | cons b u =>
      rw [List.chain'_cons] at h
      have h2 := ih h.2
      have h1 : ¬ (0 < parseInt64 a.timeStamp - parseInt64 b.timeStamp) := by
        have := h.1; omega
      unfold timeGaps
      rw [show (a :: b :: u).tail = b :: u from rfl, List.zip_cons_cons,
        List.map_cons, List.filter_cons, if_neg (by simpa using h1)]
      exact h2

/-- Field-wise extensionality for behavioral flags. -/
theorem BehavioralFlag.ext' {a b : BehavioralFlag} (h1 : a.type = b.type)
    (h2 : a.severity = b.severity) (h3 : a.description = b.description) :
    a = b := by
  cases a
  cases b
  cases h1
  cases h2
  cases h3
  rfl

/-- An `if` of two succeeding options succeeds. -/
theorem isSome_ite {α : Type} {c : Prop} [Decidable c] {x y : Option α}
    (hx : c → x.isSome) (hy : ¬ c → y.isSome) : (if c then x else y).isSome := by
  split_ifs with h
  · exact hx h
  · exact hy h

/-- A bind of succeeding computations succeeds. -/
theorem isSome_bind {α β : Type} {x : Option α} {f : α → Option β}
    (hx : x.isSome) (hf : ∀ a, (f a).isSome) : (x.bind f).isSome := by
  obtain ⟨a, ha⟩ := Option.isSome_iff_exists.1 hx
  rw [ha]
  exact hf a

/-- The ten-character slice succeeds on a long enough string. -/
theorem isSome_slice10 {s : String} (h : 10 ≤ s.length) : (slice10 s).isSome := by
  unfold slice10
  rw [if_pos h]
  rfl

/-- Structural projection: the flags field of a successful
`analyzeAddress` run is exactly the extractor output. -/
theorem analyzeAddress_flags (es : List Transaction → ℚ) (ba : BehavioralAnalyzer)
    (addr : String) (txs : List Transaction) (now : ℤ)
    (fs : List BehavioralFlag) (rts : List String)
    (hne : ¬ txs.length = 0)
    (hbf : analyzeBehavioralPatterns ba now txs = some fs)
    (hrt : checkRealTimeRisks ba txs = some rts) :
    (analyzeAddress es ba addr txs now).map (fun r => r.behavioralFlags) =
      some fs := by
  unfold analyzeAddress
  rw [if_neg hne, hbf, hrt]
  simp

/-- On every successful non-empty run, the confidence of the returned
record is `min(flagCount/5,1)·0.5` with no transaction-count term: the
aggregator reads the `transaction_count` entry of a still-empty
detailed-analysis map. -/
theorem analyzeAddress_confidence (es : List Transaction → ℚ)
    (ba : BehavioralAnalyzer) (addr : String) (txs : List Transaction)
    (now : ℤ) (fs : List BehavioralFlag) (rts : List String)
    (hne : ¬ txs.length = 0)
    (hbf : analyzeBehavioralPatterns ba now txs = some fs)
    (hrt : checkRealTimeRisks ba txs = some rts) :
    (analyzeAddress es ba addr txs now).map (fun r => r.confidence) =
      some (min ((fs.length : ℚ) / 5) 1 * (1/2)) := by
  unfold analyzeAddress calculateFinalRiskScore
  rw [if_neg hne, hbf, hrt]
  simp [lookupTable]

/-- The velocity extractor is silent on `burstTxs` (6 transactions in
one hour, threshold 20). -/
theorem burst_velocity : analyzeVelocity defaultAnalyzer burstTxs = none := by
  decide

/-- All `burstTxs` values parse to zero. -/
theorem burst_values :
    burstTxs.mapM (fun tx => bigInt? tx.value) = some [0, 0, 0, 0, 0, 0] := by
  decide

/-- Value concentration is silent on `burstTxs` (all values zero). -/
theorem burst_conc :
    analyzeValueConcentration defaultAnalyzer burstTxs = some none := by
  have he : eqFold "0xb" "0xa" = false := by decide
  unfold analyzeValueConcentration
  rw [burst_values]
  simp only [Option.some_bind, burstTxs, mkTx]
  norm_num [he, weiToEth, defaultAnalyzer, defaultThresholds]

/-- The new-address extractor is silent on `burstTxs` at `now`
1000000 (the address is old enough). -/
theorem burst_newaddr :
    analyzeNewAddressBehavior defaultAnalyzer 1000000 burstTxs = some none := by
  decide

/-- The gas extractor finds nothing on `burstTxs` (constant gas). -/
theorem burst_gas : analyzeGasAnomalies defaultAnalyzer burstTxs = some [] := by
  decide

/-- The interaction extractor finds nothing on `burstTxs`. -/
theorem burst_inter : analyzeInteractionPatterns defaultAnalyzer burstTxs = [] := by
  decide

/-- The five timestamp gaps of `burstTxs`. -/
theorem burst_gaps : timeGaps burstTxs = [30, 30, 30, 30, 30] := by decide

/-- Variance of five equal gaps is zero. -/
theorem burst_variance : calculateVariance [30, 30, 30, 30, 30] = 0 := by
  unfold calculateVariance
  norm_num

/-- The time-pattern extractor on `burstTxs`: both flags, automated
first. -/
theorem burst_time :
    analyzeTimePatterns burstTxs =
      [{ type := "automated_behavior", severity := 3/5,
         description := "Transaction timing suggests automated/bot behavior" },
       { type := "burst_pattern", severity := 7/10,
         description := "Detected burst transaction pattern" }] := by
  unfold analyzeTimePatterns
  rw [if_neg (by decide), burst_gaps]
  norm_num [burst_variance]

/-- The real-time risk pass on `burstTxs` finds nothing. -/
theorem burst_rt : checkRealTimeRisks defaultAnalyzer burstTxs = some [] := by
  decide

/-- The extractor pipeline on `burstTxs`: exactly the two time-pattern
flags, in insertion order. -/
theorem burst_behavioral :
    analyzeBehavioralPatterns defaultAnalyzer 1000000 burstTxs =
      some [{ type := "automated_behavior", severity := 3/5,
              description := "Transaction timing suggests automated/bot behavior" },
            { type := "burst_pattern", severity := 7/10,
              description := "Detected burst transaction pattern" }] := by
  unfold analyzeBehavioralPatterns
  rw [burst_conc, burst_newaddr, burst_gas]
  simp [burst_velocity, burst_inter, burst_time]

/-- The reversed `burstTxs` feed has no positive gaps. -/
theorem burst_rev_gaps : timeGaps burstTxs.reverse = [] := by decide

/-- The time-pattern extractor is silent on the reversed feed. -/
theorem burst_rev_time : analyzeTimePatterns burstTxs.reverse = [] := by
  unfold analyzeTimePatterns
  rw [if_neg (by decide), burst_rev_gaps]
  norm_num

/-- Shape of the velocity flag: emitted only past the threshold, with
the uncapped quotient as severity. -/
theorem velocity_flag_shape (ba : BehavioralAnalyzer) (txs : List Transaction)
    (f : BehavioralFlag) (h : analyzeVelocity ba txs = some f) :
    f.type = "high_velocity" ∧
    f.severity = (maxTxPerHour txs : ℚ) /
      ((ba.riskThresholds.velocityThreshold : ℤ) : ℚ) ∧
    ba.riskThresholds.velocityThreshold < (maxTxPerHour txs : ℤ) := by
  unfold analyzeVelocity at h
  split_ifs at h with h2 hthr
  · obtain rfl : _ = f := Option.some_inj.1 h
    exact ⟨rfl, rfl, hthr⟩

/-- Shape of the value-concentration flag. -/
theorem conc_flag_shape (ba : BehavioralAnalyzer) (txs : List Transaction)
    (f : BehavioralFlag)
    (h : analyzeValueConcentration ba txs = some (some f)) :
    f.type = "rapid_drainage" ∧ f.severity = 9/10 := by
  unfold analyzeValueConcentration at h
  cases hm : txs.mapM (fun tx => bigInt? tx.value) with
  | none => rw [hm] at h; simp at h
  | some vals =>
    rw [hm] at h
    simp only [Option.bind_eq_bind, Option.some_bind] at h
    cases txs with
    | nil => simp at h
    | cons t0 rest =>
      dsimp only at h
      split_ifs at h with h5 hval
      · obtain rfl : _ = f := by simpa using h
        exact ⟨rfl, rfl⟩
      · simp at h
      · simp at h

/-- Shape of the new-address flag. -/
theorem newaddr_flag_shape (ba : BehavioralAnalyzer) (now : ℤ)
    (txs : List Transaction) (f : BehavioralFlag)
    (h : analyzeNewAddressBehavior ba now txs = some (some f)) :
    f.type = "new_address_high_value" ∧ f.severity = 17/20 := by
  unfold analyzeNewAddressBehavior at h
  cases hl : txs.getLast? with
  | none => rw [hl] at h; simp at h
  | some last =>
    rw [hl] at h
    dsimp only at h
    split_ifs at h with hage
    · cases hm : txs.mapM (fun tx => bigInt? tx.value) with
      | none => rw [hm] at h; simp at h
      | some vals =>
        rw [hm] at h
        simp only [Option.bind_eq_bind, Option.some_bind] at h
        split_ifs at h with hv
        · obtain rfl : _ = f := by simpa using h
          exact ⟨rfl, rfl⟩
        · simp at h
    · simp at h

/-- Shape of a single gas-anomaly flag. -/
theorem gas_flag_shape (threshold : ℤ) (tx : Transaction) (f : BehavioralFlag)
    (h : gasAnomalyFlagFor threshold tx = some (some f)) :
    f.type = "gas_anomaly" ∧ f.severity = 7/10 := by
  unfold gasAnomalyFlagFor at h
  cases hg : bigInt? tx.gasPrice with
  | none => rw [hg] at h; simp at h
  | some g =>
    rw [hg] at h
    simp only [Option.bind_eq_bind, Option.some_bind] at h
    split_ifs at h with ht
    · cases hs : slice10 tx.hash with
      | none => rw [hs] at h; simp at h
      | some pre =>
        rw [hs] at h
        simp only [Option.bind_eq_bind, Option.some_bind] at h
        obtain rfl : _ = f := by simpa using h
        exact ⟨rfl, rfl⟩
    · simp at h

/-- Shape of all gas-anomaly flags of a successful run. -/
theorem gas_flags_shape (ba : BehavioralAnalyzer) (txs : List Transaction)
    (fs : List BehavioralFlag) (h : analyzeGasAnomalies ba txs = some fs) :
    ∀ f ∈ fs, f.type = "gas_anomaly" ∧ f.severity = 7/10 := by
  unfold analyzeGasAnomalies at h
  simp only [Option.pure_def] at h
  split_ifs at h with h1 h2
  · obtain rfl : _ = fs := Option.some_inj.1 h
    intro f hf
    simp at hf
  · obtain rfl : _ = fs := Option.some_inj.1 h
    intro f hf
    simp at hf
  · obtain ⟨l, hl, rfl⟩ := Option.map_eq_some'.1 h
    intro f hf
    obtain ⟨of, hof, hid⟩ := List.mem_filterMap.1 hf
    obtain ⟨tx, htx, hflag⟩ := exists_of_mapM_some _ _ _ hl of hof
    have hof2 : of = some f := hid
    subst hof2
    exact gas_flag_shape _ tx f hflag

/-- Shapes of the interaction-pattern flags. -/
theorem inter_flags_shape (ba : BehavioralAnalyzer) (txs : List Transaction) :
    ∀ f ∈ analyzeInteractionPatterns ba txs,
      (f.type = "suspicious_method" ∧ f.severity = 4/5) ∨
      (f.type = "mixer_interaction" ∧ f.severity = 17/20) ∨
      (f.type = "circular_pattern" ∧ f.severity = 3/4) := by
  intro f hf
  unfold analyzeInteractionPatterns at hf
  simp only [List.mem_append] at hf
  rcases hf with (hf | hf) | hf
  · left
    obtain ⟨tx, htx, hmk⟩ := List.mem_filterMap.1 hf
    split_ifs at hmk with hlen
    · cases hlk : lookupTable suspiciousPatterns (tx.input.take 10) with
      | none => rw [hlk] at hmk; simp at hmk
      | some v =>
        rw [hlk] at hmk
        obtain rfl : _ = f := Option.some_inj.1 hmk
        exact ⟨rfl, rfl⟩
  · right; left
    obtain ⟨addr, haddr, hmk⟩ := List.mem_filterMap.1 hf
    obtain ⟨name, hname, rfl⟩ := Option.map_eq_some'.1 hmk
    exact ⟨rfl, rfl⟩
  · right; right
    split_ifs at hf with hc
    · rcases List.mem_singleton.1 hf with rfl
      exact ⟨rfl, rfl⟩
    · simp at hf

/-- Shapes of the time-pattern flags. -/
theorem time_flags_shape (txs : List Transaction) :
    ∀ f ∈ analyzeTimePatterns txs,
      (f.type = "automated_behavior" ∧ f.severity = 3/5) ∨
      (f.type = "burst_pattern" ∧ f.severity = 7/10) := by
  intro f hf
  unfold analyzeTimePatterns at hf
  split_ifs at hf with h3
  · simp at hf
  · simp only [List.mem_append] at hf
    rcases hf with hf | hf
    · split_ifs at hf with hauto
      · rcases List.mem_singleton.1 hf with rfl
        exact Or.inl ⟨rfl, rfl⟩
      · simp at hf
    · split_ifs at hf with hburst
      · rcases List.mem_singleton.1 hf with rfl
        exact Or.inr ⟨rfl, rfl⟩
      · simp at hf

/-- A flag of a non-velocity type with a constant severity satisfies
both sides of the C2 severity dichotomy. -/
theorem const_flag_ok {f : BehavioralFlag} {T : String} {s : ℚ} {Q : Prop}
    (ht : f.type = T) (hT : ¬ T = "high_velocity") (hs : f.severity = s)
    (h0 : 0 ≤ s) (h1 : s ≤ 1) :
    (f.type = "high_velocity" → Q) ∧
    (f.type ≠ "high_velocity" → 0 ≤ f.severity ∧ f.severity ≤ 1) := by
  constructor
  · intro hhv
    rw [ht] at hhv
    exact absurd hhv hT
  · intro _
    rw [hs]
    exact ⟨h0, h1⟩

/-! ## Claims -/

/-- C3 (confirmed): for the empty transaction list the analysis returns a
populated result with the fixed risk-score floor 0.1, confidence 0.1
(strictly below 0.2), and no runtime failure: `analyzeAddress` returns
`some` along the early-return branch. -/
theorem c3_empty_history_floor (entropyScore : List Transaction → ℚ)
    (ba : BehavioralAnalyzer) (address : String) (now : ℤ) :
    ∃ r, analyzeAddress entropyScore ba address [] now = some r ∧
      r.riskScore = 1/10 ∧ r.confidence = 1/10 ∧ r.confidence < 1/5 ∧
      r.realTimeFlags = ["No transaction history found"] ∧
      r.behavioralFlags = [] :=
  ⟨_, rfl, rfl, rfl, by norm_num, rfl, rfl⟩

/-- C4 counterexample: on exactly the three transactions A→B, B→C, C→A
the extractor emits no `circular_pattern` flag at all (the claim says
exactly one): `detectCircularPattern` starts with a `len(txs) < 4`
guard, so a three-transaction feed can never produce the flag. -/
theorem c4_counterexample :
    detectCircularPattern cycleTxs3 = false ∧
    (analyzeInteractionPatterns defaultAnalyzer cycleTxs3).countP
      (fun f => f.type == "circular_pattern") = 0 := by
  decide

/-- C4 (amended): for a four-transaction input whose from→to edges are
A→B, B→C, C→A, A→B (at least four transactions are required by the
guard), the interaction-pattern extractor emits the `circular_pattern`
flag exactly once. -/
theorem c4_circular_emitted_once :
    (analyzeInteractionPatterns defaultAnalyzer cycleTxs4).countP
      (fun f => f.type == "circular_pattern") = 1 := by
  decide

/-- C6 counterexample: at risk score exactly 0.8 the recommendation
list starts with the high-tier message, not the critical base
recommendation (the thresholds are strict, not ≥); and a result with
two mixer-interaction flags gets the mixer follow-up twice (one per
flag occurrence, not per distinct type). -/
theorem c6_counterexample :
    ((4 : ℚ)/5 ≤ tier08Analysis.riskScore ∧
     (generateRecommendations tier08Analysis).head? = some recHigh1 ∧
     recHigh1 ≠ recCritical1) ∧
    (generateRecommendations dupMixerAnalysis).count recMixer = 2 := by
  have hr : tier08Analysis.riskScore = 4/5 := rfl
  refine ⟨⟨le_of_eq hr.symm, ?_, by decide⟩, ?_⟩
  · unfold generateRecommendations
    rw [hr, if_neg (lt_irrefl _), if_pos (by norm_num)]
    rfl
  · have h0 : dupMixerAnalysis.riskScore = 0 := rfl
    unfold generateRecommendations
    rw [h0, if_neg (by norm_num), if_neg (by norm_num),
      if_neg (by norm_num), if_neg (by norm_num)]
    decide

/-- C6 (amended): the recommendation list is the base block of the tier
determined by the strict thresholds (critical >0.8, high >0.6, medium
>0.4, low >0.2, otherwise minimal; two fixed strings per tier, one for
minimal), followed by exactly one additional recommendation per flag
occurrence whose type is mixer_interaction, high_velocity or
new_address_high_value, in flag order. -/
theorem c6_recommendations_shape (a : EnhancedRiskAnalysis) :
    generateRecommendations a = specRecommendations a := rfl

/-- C7 counterexample: a six-transaction feed (all 30 s apart) makes
`analyzeAddress` return behavioralFlags with severities [0.6, 0.7] in
extractor insertion order, which is not non-increasing: the result
handed back to the caller is not sorted by severity. -/
theorem c7_counterexample :
    (analyzeAddress (fun _ => 0) defaultAnalyzer "0xme" burstTxs 1000000).map
      (fun r => r.behavioralFlags.map (fun f => f.severity)) =
        some [3/5, 7/10] ∧
    ¬ ((7 : ℚ)/10 ≤ 3/5) := by
  constructor
  · have h := analyzeAddress_flags (fun _ => 0) defaultAnalyzer "0xme" burstTxs
      1000000 _ [] (by decide) burst_behavioral burst_rt
    obtain ⟨r, hr, hfl⟩ := Option.map_eq_some'.1 h
    rw [hr]
    simp [hfl]
  · norm_num

/-- C7 (amended): the flags list returned by `analyzeAddress` is in
extractor insertion order; the severity sort happens in
`displayResults`, whose sort produces a permutation of the flags that
is non-increasing in severity. -/
theorem c7_display_sort_sorted (fs : List BehavioralFlag) :
    List.Chain' (fun a b => b.severity ≤ a.severity) (sortFlagsBySeverity fs) ∧
    List.Perm (sortFlagsBySeverity fs) fs := by
  constructor
  · apply List.Pairwise.chain'
    have hs := @List.sorted_mergeSort BehavioralFlag
      (fun a b : BehavioralFlag => decide (b.severity ≤ a.severity))
      (fun a b c hab hbc => by
        simp only [decide_eq_true_eq] at hab hbc ⊢
        exact le_trans hbc hab)
      (fun a b => by
        simp only [Bool.or_eq_true, decide_eq_true_eq]
        exact le_total b.severity a.severity)
      fs
    exact hs.imp (fun h => by simpa using h)
  · exact List.mergeSort_perm fs _

/-- C8 counterexample: on a strictly descending six-transaction feed
the time-pattern extractor emits both flags, but on the reversed feed
it emits none (gaps are `time[i-1] - time[i]` kept only when positive,
not absolute deltas), so reversing the feed changes the output. -/
theorem c8_counterexample :
    (analyzeTimePatterns burstTxs).map (fun f => f.type) =
      ["automated_behavior", "burst_pattern"] ∧
    analyzeTimePatterns burstTxs.reverse = [] ∧
    analyzeTimePatterns burstTxs ≠ analyzeTimePatterns burstTxs.reverse := by
  refine ⟨?_, burst_rev_time, ?_⟩
  · rw [burst_time]; rfl
  · rw [burst_time, burst_rev_time]
    exact List.cons_ne_nil _ _

/-- C8 (amended): the extractor keeps only strictly positive feed
deltas `time[i-1] - time[i]` (no absolute value), matching the
newest-first feed; reversing any non-increasing feed makes every delta
non-positive, so the reversed feed yields no time-pattern flags and
temporal anomaly score 0 — reversal is not output-preserving. -/
theorem c8_reversed_feed_drops_time_flags (txs : List Transaction)
    (h : List.Chain' (fun a b =>
      parseInt64 b.timeStamp ≤ parseInt64 a.timeStamp) txs) :
    analyzeTimePatterns txs.reverse = [] ∧
    calculateTemporalAnomalyScore txs.reverse = 0 := by
  have hrev : List.Chain' (fun a b =>
      parseInt64 a.timeStamp ≤ parseInt64 b.timeStamp) txs.reverse :=
    List.chain'_reverse.mpr h
  have hg : timeGaps txs.reverse = [] := timeGaps_eq_nil _ hrev
  constructor
  · unfold analyzeTimePatterns
    split_ifs with hl
    · rfl
    · simp [hg]
  · unfold calculateTemporalAnomalyScore
    split_ifs with hl
    · rfl
    · simp [hg]

/-- Witness for C8 (amended) at the concrete descending feed. -/
theorem c8_reversed_feed_drops_time_flags_witness :
    List.Chain' (fun a b =>
      parseInt64 b.timeStamp ≤ parseInt64 a.timeStamp) burstTxs ∧
    (analyzeTimePatterns burstTxs.reverse = [] ∧
     calculateTemporalAnomalyScore burstTxs.reverse = 0) :=
  ⟨by simp only [burstTxs, mkTx, List.chain'_cons, List.chain'_singleton]; decide,
   c8_reversed_feed_drops_time_flags burstTxs
     (by simp only [burstTxs, mkTx, List.chain'_cons, List.chain'_singleton]; decide)⟩

/-- C5 counterexample: a window satisfying the gas conditions with the
same `to` on all three transactions but a middle `from` different from
the outer one still emits the sandwich flag — the detector never
examines the middle transaction's `from`, so "changing the middle
transaction's from so it differs suppresses the flag" is false. -/
theorem c5_counterexample :
    eqFold sandT1.fromAddr sandT2.fromAddr = false ∧
    (detectSandwichAttacks [sandT1, sandT2, sandT3] 10).map
      (fun l => l.map (fun f => f.type)) = some ["sandwich_attack"] := by
  exact ⟨by decide, by decide⟩

/-- C5 (amended): for a three-transaction feed whose gas prices parse,
with gas(1) > 5·p90, gas(3) > 5·p90, gas(2) < 2·p90 and matching outer
`from` addresses, the sandwich flag is emitted whenever all three `to`
addresses agree case-insensitively (and the hashes are long enough for
the evidence slices), regardless of the middle transaction's `from`;
and it is suppressed exactly when the `to` chain fails. -/
theorem c5_sandwich_characterization (t1 t2 t3 : Transaction)
    (p90 g1 g2 g3 : ℤ)
    (h1 : bigInt? t1.gasPrice = some g1) (h2 : bigInt? t2.gasPrice = some g2)
    (h3 : bigInt? t3.gasPrice = some g3)
    (hg : p90 * 5 < g1 ∧ p90 * 5 < g3 ∧ g2 < p90 * 2)
    (hfrom : eqFold t1.fromAddr t3.fromAddr = true) :
    ((eqFold t1.toAddr t2.toAddr = true ∧ eqFold t2.toAddr t3.toAddr = true) →
      10 ≤ t1.hash.length → 10 ≤ t2.hash.length → 10 ≤ t3.hash.length →
      (detectSandwichAttacks [t1, t2, t3] p90).map
        (fun l => l.map (fun f => (f.type, f.severity))) =
          some [("sandwich_attack", 9/10)]) ∧
    (¬ (eqFold t1.toAddr t2.toAddr = true ∧ eqFold t2.toAddr t3.toAddr = true) →
      detectSandwichAttacks [t1, t2, t3] p90 = some []) := by
  have hw : windowTriples [t1, t2, t3] = [(t1, t2, t3)] := rfl
  constructor
  · intro hto hh1 hh2 hh3
    have hflag : sandwichFlagFor p90 (t1, t2, t3) =
        some (some { type := "sandwich_attack", severity := 9/10,
                     description := "Sandwich attack pattern detected" }) := by
      unfold sandwichFlagFor
      rw [h1]
      simp only [Option.bind_eq_bind, Option.some_bind]
      rw [h2]
      simp only [Option.bind_eq_bind, Option.some_bind]
      rw [h3]
      simp only [Option.bind_eq_bind, Option.some_bind]
      rw [if_pos hg, if_pos hfrom, if_pos hto]
      unfold slice10
      rw [if_pos hh1]
      simp only [Option.bind_eq_bind, Option.some_bind]
      rw [if_pos hh2]
      simp only [Option.bind_eq_bind, Option.some_bind]
      rw [if_pos hh3]
      rfl
    unfold detectSandwichAttacks
    rw [hw]
    rw [show ([(t1, t2, t3)].mapM (sandwichFlagFor p90)) =
      (sandwichFlagFor p90 (t1, t2, t3)).bind
        (fun b => some [b]) from rfl]
    rw [hflag]
    rfl
  · intro hto
    have hflag : sandwichFlagFor p90 (t1, t2, t3) = some none := by
      unfold sandwichFlagFor
      rw [h1]
      simp only [Option.bind_eq_bind, Option.some_bind]
      rw [h2]
      simp only [Option.bind_eq_bind, Option.some_bind]
      rw [h3]
      simp only [Option.bind_eq_bind, Option.some_bind]
      rw [if_pos hg, if_pos hfrom, if_neg hto]
      rfl
    unfold detectSandwichAttacks
    rw [hw]
    rw [show ([(t1, t2, t3)].mapM (sandwichFlagFor p90)) =
      (sandwichFlagFor p90 (t1, t2, t3)).bind
        (fun b => some [b]) from rfl]
    rw [hflag]
    rfl

/-- Witness for C5 (amended) at a concrete matching window. -/
theorem c5_sandwich_characterization_witness :
    bigInt? sandT1.gasPrice = some 100 ∧
    (10 * 5 < (100 : ℤ) ∧ 10 * 5 < (100 : ℤ) ∧ (5 : ℤ) < 10 * 2) ∧
    (((eqFold sandT1.toAddr sandT2.toAddr = true ∧
       eqFold sandT2.toAddr sandT3.toAddr = true) →
      10 ≤ sandT1.hash.length → 10 ≤ sandT2.hash.length →
      10 ≤ sandT3.hash.length →
      (detectSandwichAttacks [sandT1, sandT2, sandT3] 10).map
        (fun l => l.map (fun f => (f.type, f.severity))) =
          some [("sandwich_attack", 9/10)]) ∧
     (¬ (eqFold sandT1.toAddr sandT2.toAddr = true ∧
         eqFold sandT2.toAddr sandT3.toAddr = true) →
      detectSandwichAttacks [sandT1, sandT2, sandT3] 10 = some [])) :=
  ⟨by decide, by decide,
   c5_sandwich_characterization sandT1 sandT2 sandT3 10 100 5 100
     (by decide) (by decide) (by decide) (by decide) (by decide)⟩

/-- C10 counterexample: the hash-length precondition alone does not
make the extractors total: a transaction whose gas price fails to parse
panics them (nil `big.Int` dereference) even though every hash is long
enough. -/
theorem c10_counterexample :
    (∀ tx ∈ panicGasTxs, 10 ≤ tx.hash.length) ∧
    analyzeGasAnomalies defaultAnalyzer panicGasTxs = none ∧
    detectFrontRunning panicGasTxs 1 = none := by
  refine ⟨by decide, by decide, by decide⟩

/-- C10 (amended): under the preconditions that every gas price parses
and every hash has at least 10 characters, the gas-anomaly and
front-running extractors are total; the hash precondition is genuinely
required, because the `Hash[:10]` slice is unguarded for a transaction
crossing the anomaly threshold (`panicHashTxs` panics on it). -/
theorem c10_gas_extractors_total (ba : BehavioralAnalyzer)
    (txs : List Transaction) (p90 : ℤ)
    (hhash : ∀ tx ∈ txs, 10 ≤ tx.hash.length)
    (hgas : ∀ tx ∈ txs, (bigInt? tx.gasPrice).isSome) :
    ((analyzeGasAnomalies ba txs).isSome ∧
     (detectFrontRunning txs p90).isSome) ∧
    analyzeGasAnomalies defaultAnalyzer panicHashTxs = none := by
  refine ⟨⟨?_, ?_⟩, by decide⟩
  · unfold analyzeGasAnomalies
    split_ifs with hl
    · rfl
    · simp only [Option.isSome_map']
      split_ifs with hv
      · rfl
      rw [Option.isSome_map']
      apply mapM_isSome
      intro tx htx
      unfold gasAnomalyFlagFor
      refine isSome_bind (hgas tx htx) ?_
      intro g
      refine isSome_ite (fun _ => ?_) (fun _ => rfl)
      refine isSome_bind (isSome_slice10 (hhash tx htx)) ?_
      intro pre
      rfl
  · unfold detectFrontRunning
    simp only [Option.isSome_map']
    apply mapM_isSome
    intro itx hitx
    obtain ⟨hi, hx⟩ := List.mem_enum hitx
    have hmem : itx.2 ∈ txs := hx ▸ List.getElem_mem hi
    unfold frontRunFlagFor
    refine isSome_bind (hgas itx.2 hmem) ?_
    intro g
    refine isSome_ite (fun _ => ?_) (fun _ => rfl)
    refine isSome_ite (fun hrange => ?_) (fun _ => ?_)
    · have hm1 : itx.1 - 1 < txs.length := by omega
      have hm2 : itx.1 + 1 < txs.length := by omega
      have hp1 : txs.getD (itx.1 - 1) default ∈ txs := by
        rw [List.getD_eq_getElem txs default hm1]
        exact List.getElem_mem hm1
      have hp2 : txs.getD (itx.1 + 1) default ∈ txs := by
        rw [List.getD_eq_getElem txs default hm2]
        exact List.getElem_mem hm2
      refine isSome_bind (hgas _ hp1) ?_
      intro pg
      refine isSome_bind (hgas _ hp2) ?_
      intro ng
      refine isSome_bind Option.isSome_some ?_
      intro y
      refine isSome_ite (fun _ => ?_) (fun _ => Option.isSome_some)
      refine isSome_bind (isSome_slice10 (hhash itx.2 hmem)) ?_
      intro pre
      exact Option.isSome_some
    · refine isSome_bind Option.isSome_some ?_
      intro y
      refine isSome_ite (fun _ => ?_) (fun _ => Option.isSome_some)
      refine isSome_bind (isSome_slice10 (hhash itx.2 hmem)) ?_
      intro pre
      exact Option.isSome_some

/-- Witness for C10 (amended) at a concrete well-formed feed. -/
theorem c10_gas_extractors_total_witness :
    (∀ tx ∈ okGasTxs, 10 ≤ tx.hash.length) ∧
    (((analyzeGasAnomalies defaultAnalyzer okGasTxs).isSome ∧
      (detectFrontRunning okGasTxs 1).isSome) ∧
     analyzeGasAnomalies defaultAnalyzer panicHashTxs = none) :=
  ⟨by decide,
   c10_gas_extractors_total defaultAnalyzer okGasTxs 1 (by decide) (by decide)⟩

/-- C2 counterexample: with 21 transactions in one hour against the
configured threshold of 20, the high_velocity flag is emitted with
severity 21/20 > 1: the extractor applies no `min(…, cap)` and the
severity leaves [0,1]. -/
theorem c2_counterexample :
    (analyzeVelocity defaultAnalyzer velTxs).map (fun f => (f.type, f.severity)) =
      some ("high_velocity", 21/20) ∧ (1 : ℚ) < 21/20 := by
  constructor
  · have hm : maxTxPerHour velTxs = 21 := by decide
    unfold analyzeVelocity
    rw [if_neg (by decide), if_pos (by decide)]
    simp only [Option.map_some']
    rw [hm]
    norm_num [defaultAnalyzer, defaultThresholds]
  · norm_num

/-- C2 (amended): in any successful extractor run with the configured
thresholds, a high_velocity flag carries severity `maxTxPerHour/20`
uncapped — strictly greater than 1 whenever the flag is emitted at all —
while every other flag type carries a constant severity inside [0,1]. -/
theorem c2_flag_severities (db : AddressDB) (now : ℤ) (txs : List Transaction)
    (fs : List BehavioralFlag)
    (h : analyzeBehavioralPatterns ⟨defaultThresholds, db⟩ now txs = some fs) :
    ∀ f ∈ fs,
      (f.type = "high_velocity" →
        f.severity = (maxTxPerHour txs : ℚ) / 20 ∧ 1 < f.severity) ∧
      (f.type ≠ "high_velocity" → 0 ≤ f.severity ∧ f.severity ≤ 1) := by
  unfold analyzeBehavioralPatterns at h
  cases hconc : analyzeValueConcentration ⟨defaultThresholds, db⟩ txs with
  | none => rw [hconc] at h; simp at h
  | some conc =>
  rw [hconc] at h
  simp only [Option.bind_eq_bind, Option.some_bind] at h
  cases hnew : analyzeNewAddressBehavior ⟨defaultThresholds, db⟩ now txs with
  | none => rw [hnew] at h; simp at h
  | some newAddr =>
  rw [hnew] at h
  simp only [Option.bind_eq_bind, Option.some_bind] at h
  cases hgas : analyzeGasAnomalies ⟨defaultThresholds, db⟩ txs with
  | none => rw [hgas] at h; simp at h
  | some gasFlags =>
  rw [hgas] at h
  simp only [Option.bind_eq_bind, Option.some_bind, Option.pure_def,
    Option.some_inj] at h
  subst h
  intro f hf
  simp only [List.mem_append] at hf
  rcases hf with ((((hf | hf) | hf) | hf) | hf) | hf
  · cases hv : analyzeVelocity ⟨defaultThresholds, db⟩ txs with
    | none => rw [hv] at hf; simp at hf
    | some vf =>
      rw [hv] at hf
      simp only [Option.toList_some, List.mem_singleton] at hf
      subst hf
      obtain ⟨ht, hs, hgt⟩ := velocity_flag_shape _ _ _ hv
      have h20 : (20 : ℤ) < (maxTxPerHour txs : ℤ) := hgt
      have hsev : f.severity = (maxTxPerHour txs : ℚ) / 20 := by
        rw [hs]; norm_num [defaultThresholds]
      constructor
      · intro _
        refine ⟨hsev, ?_⟩
        rw [hsev]
        rw [one_lt_div (by norm_num : (0 : ℚ) < 20)]
        exact_mod_cast h20
      · intro hne
        exact absurd ht hne
  · cases conc with
    | none => simp at hf
    | some cf =>
      simp only [Option.toList_some, List.mem_singleton] at hf
      subst hf
      obtain ⟨ht, hs⟩ := conc_flag_shape _ _ _ hconc
      exact const_flag_ok ht (by decide) hs (by norm_num) (by norm_num)
  · cases newAddr with
    | none => simp at hf
    | some nf =>
      simp only [Option.toList_some, List.mem_singleton] at hf
      subst hf
      obtain ⟨ht, hs⟩ := newaddr_flag_shape _ _ _ _ hnew
      exact const_flag_ok ht (by decide) hs (by norm_num) (by norm_num)
  · obtain ⟨ht, hs⟩ := gas_flags_shape _ _ _ hgas f hf
    exact const_flag_ok ht (by decide) hs (by norm_num) (by norm_num)
  · rcases inter_flags_shape _ _ f hf with ⟨ht, hs⟩ | ⟨ht, hs⟩ | ⟨ht, hs⟩ <;>
      exact const_flag_ok ht (by decide) hs (by norm_num) (by norm_num)
  · rcases time_flags_shape _ f hf with ⟨ht, hs⟩ | ⟨ht, hs⟩ <;>
      exact const_flag_ok ht (by decide) hs (by norm_num) (by norm_num)

/-- The extractor pipeline on `velTxs`: exactly the velocity flag. -/
theorem velTxs_behavioral :
    analyzeBehavioralPatterns ⟨defaultThresholds, {}⟩ 1000000 velTxs =
      some [velFlag] := by
  have hvel : analyzeVelocity ⟨defaultThresholds, {}⟩ velTxs = some velFlag := by
    unfold analyzeVelocity
    rw [if_neg (by decide), if_pos (by decide)]
    refine congrArg some (BehavioralFlag.ext' ?_ ?_ ?_)
    · rfl
    · show ((maxTxPerHour velTxs : ℕ) : ℚ) / _ = 21/20
      norm_num [show maxTxPerHour velTxs = 21 from by decide, defaultThresholds]
    · decide
  have hconc : analyzeValueConcentration ⟨defaultThresholds, {}⟩ velTxs =
      some none := by
    have he : eqFold "0xb" "0xa" = false := by decide
    have hvals : velTxs.mapM (fun tx => bigInt? tx.value) =
        some [0, 0, 0, 0, 0, 0, 0, 0, 0, 0, 0, 0, 0, 0, 0, 0, 0, 0, 0, 0, 0] := by
      decide
    unfold analyzeValueConcentration
    rw [hvals]
    simp only [Option.bind_eq_bind, Option.some_bind, velTxs, velTx, mkTx]
    norm_num [he, weiToEth, defaultThresholds]
  have hnew : analyzeNewAddressBehavior ⟨defaultThresholds, {}⟩ 1000000 velTxs =
      some none := by decide
  have hgas : analyzeGasAnomalies ⟨defaultThresholds, {}⟩ velTxs = some [] := by
    decide
  have hinter : analyzeInteractionPatterns ⟨defaultThresholds, {}⟩ velTxs = [] := by
    decide
  have htime : analyzeTimePatterns velTxs = [] := by
    unfold analyzeTimePatterns
    rw [if_neg (by decide), (by decide : timeGaps velTxs = [])]
    norm_num
  unfold analyzeBehavioralPatterns
  rw [hconc, hnew, hgas]
  simp [hvel, hinter, htime]

/-- Witness for C2 (amended) at the 21-transaction feed. -/
theorem c2_flag_severities_witness :
    analyzeBehavioralPatterns ⟨defaultThresholds, {}⟩ 1000000 velTxs =
      some [velFlag] ∧
    (∀ f ∈ [velFlag],
      (f.type = "high_velocity" →
        f.severity = (maxTxPerHour velTxs : ℚ) / 20 ∧ 1 < f.severity) ∧
      (f.type ≠ "high_velocity" → 0 ≤ f.severity ∧ f.severity ≤ 1)) :=
  ⟨velTxs_behavioral,
   c2_flag_severities {} 1000000 velTxs _ velTxs_behavioral⟩

/-- C9 (confirmed): whenever at least 10 transactions carry a counted
first digit and the per-digit tallies match the theoretical Benford
table exactly (tally d = expected share × total), the chi-square
distance is 0 and the normalized, clamped Benford score is exactly 0. -/
theorem c9_benford_exact_match (ba : BehavioralAnalyzer)
    (txs : List Transaction)
    (h10 : 10 ≤ benfordTotalCount txs)
    (hmatch : ∀ d < 9, (digitCount txs d : ℚ) =
      benfordExpected.getD d 0 * (benfordTotalCount txs : ℚ)) :
    calculateBenfordScore ba txs = 0 := by
  have hle : benfordTotalCount txs ≤ txs.length :=
    List.countP_le_length _
  have hlen : ¬ (txs.length < 10) := by omega
  have htn : ((benfordTotalCount txs : ℕ) : ℚ) ≠ 0 :=
    Nat.cast_ne_zero.mpr (by omega)
  unfold calculateBenfordScore
  rw [if_neg hlen]
  have hz : ((List.range 9).map (fun i =>
      if 0 < benfordExpected.getD i 0 then
        ((digitCount txs i : ℚ) / (benfordTotalCount txs : ℚ) -
          benfordExpected.getD i 0) ^ 2 / benfordExpected.getD i 0
      else 0)).sum = 0 := by
    apply List.sum_eq_zero
    intro x hx
    obtain ⟨i, hi, rfl⟩ := List.mem_map.1 hx
    have hi9 : i < 9 := List.mem_range.1 hi
    have hobs : (digitCount txs i : ℚ) / (benfordTotalCount txs : ℚ) =
        benfordExpected.getD i 0 := by
      rw [hmatch i hi9, mul_div_assoc, div_self htn, mul_one]
    split_ifs with hpos
    · rw [hobs, sub_self]
      norm_num
    · rfl
  simp only [if_neg (show ¬ (benfordTotalCount txs < 10) from by omega), hz,
    zero_div]
  exact min_eq_left zero_le_one

set_option maxRecDepth 1000000 in
/-- Witness for C9 at one thousand transactions whose first-digit
tallies are exactly 1000 times the Benford table. -/
theorem c9_benford_exact_match_witness :
    10 ≤ benfordTotalCount benfordUniformTxs ∧
    calculateBenfordScore defaultAnalyzer benfordUniformTxs = 0 :=
  ⟨by rw [show benfordTotalCount benfordUniformTxs = 1000 from by decide]
      norm_num,
   c9_benford_exact_match defaultAnalyzer benfordUniformTxs
     (by rw [show benfordTotalCount benfordUniformTxs = 1000 from by decide]
         norm_num)
     (by
       intro d hd
       rw [show benfordTotalCount benfordUniformTxs = 1000 from by decide]
       interval_cases d
       · rw [show digitCount benfordUniformTxs 0 = 301 from by decide]
         norm_num [benfordExpected]
       · rw [show digitCount benfordUniformTxs 1 = 176 from by decide]
         norm_num [benfordExpected]
       · rw [show digitCount benfordUniformTxs 2 = 125 from by decide]
         norm_num [benfordExpected]
       · rw [show digitCount benfordUniformTxs 3 = 97 from by decide]
         norm_num [benfordExpected]
       · rw [show digitCount benfordUniformTxs 4 = 79 from by decide]
         norm_num [benfordExpected]
       · rw [show digitCount benfordUniformTxs 5 = 67 from by decide]
         norm_num [benfordExpected]
       · rw [show digitCount benfordUniformTxs 6 = 58 from by decide]
         norm_num [benfordExpected]
       · rw [show digitCount benfordUniformTxs 7 = 51 from by decide]
         norm_num [benfordExpected]
       · rw [show digitCount benfordUniformTxs 8 = 46 from by decide]
         norm_num [benfordExpected])⟩

/-- C1 counterexample: on the six-transaction burst feed the pipeline
returns an analysis with two behavioral flags whose confidence is
1/5 = 0.5·min(2/5,1): the claimed formula
`0.5·min(flagCount/5,1) + 0.5·min(transactionCount/50,1)` would give
13/50 at flagCount 2 and transactionCount 6.  The transaction-count
term is always absent because `calculateFinalRiskScore` reads
`DetailedAnalysis["transaction_count"]` (defaulting to 0) before
`analyzeAddress` writes that entry. -/
theorem c1_counterexample :
    ∃ r, analyzeAddress (fun _ => 0) defaultAnalyzer "0xc1" burstTxs 1000000 =
        some r ∧
      r.behavioralFlags.length = 2 ∧
      burstTxs.length = 6 ∧
      r.confidence = 1/5 ∧
      specConfidence 2 6 = 13/50 ∧
      r.confidence ≠ specConfidence r.behavioralFlags.length burstTxs.length := by
  have hc := analyzeAddress_confidence (fun _ => 0) defaultAnalyzer "0xc1"
    burstTxs 1000000 _ [] (by decide) burst_behavioral burst_rt
  have hf := analyzeAddress_flags (fun _ => 0) defaultAnalyzer "0xc1"
    burstTxs 1000000 _ [] (by decide) burst_behavioral burst_rt
  cases ha : analyzeAddress (fun _ => 0) defaultAnalyzer "0xc1" burstTxs 1000000 with
  | none => rw [ha] at hc; exact absurd hc (by simp)
  | some r =>
    rw [ha] at hc hf
    simp only [Option.map_some', Option.some.injEq] at hc hf
    have hlen : r.behavioralFlags.length = 2 := by rw [hf]; rfl
    have hconf : r.confidence = 1/5 := by
      rw [hc]
      norm_num [min_eq_left]
    refine ⟨r, rfl, hlen, by decide, hconf, ?_, ?_⟩
    · unfold specConfidence
      norm_num [min_eq_left]
    · rw [hlen, show burstTxs.length = 6 from by decide, hconf]
      unfold specConfidence
      norm_num [min_eq_left]

/-- C1 (amended): in the record state the pipeline actually hands to the
aggregator — the `transaction_count` entry of the detailed-analysis map
not yet written — `calculateFinalRiskScore` returns the spec risk-score
formula (flags contribute severity² at weight severity; statistical
weights 0.7/0.8/0.5/0.6/0.7; real-time flags add 0.2 each at a single
0.9 weight when present; quotient clamped to [0,1]) paired with the
claimed confidence formula evaluated at transactionCount 0, i.e.
`0.5·min(flagCount/5,1)`: the `0.5·min(transactionCount/50,1)` term
never contributes, under non-negativity of the severities and
statistical scores (as all pipeline-produced ones are). -/
theorem c1_final_risk_score (a : EnhancedRiskAnalysis)
    (hnone : lookupTable a.detailedAnalysis "transaction_count" = none)
    (hsev : ∀ f ∈ a.behavioralFlags, 0 ≤ f.severity)
    (hb : 0 ≤ a.statisticalScores.benfordScore)
    (hv : 0 ≤ a.statisticalScores.velocityScore)
    (he : 0 ≤ a.statisticalScores.entropyScore)
    (hc : 0 ≤ a.statisticalScores.clusteringScore)
    (ht : 0 ≤ a.statisticalScores.temporalAnomaly) :
    calculateFinalRiskScore a =
      (clamp01 (specTotalWeightedScore a / specTotalWeight a),
       specConfidence a.behavioralFlags.length 0) := by
  have hbw : 0 ≤ (a.behavioralFlags.map (fun f => f.severity)).sum :=
    List.sum_nonneg (fun x hx => by
      obtain ⟨f, hf, rfl⟩ := List.mem_map.1 hx
      exact hsev f hf)
  have hbs : 0 ≤ (a.behavioralFlags.map (fun f => f.severity * f.severity)).sum :=
    List.sum_nonneg (fun x hx => by
      obtain ⟨f, hf, rfl⟩ := List.mem_map.1 hx
      exact mul_self_nonneg _)
  have hrtlen : (0 : ℚ) ≤ (a.realTimeFlags.length : ℚ) := by positivity
  unfold calculateFinalRiskScore clamp01 specTotalWeightedScore specTotalWeight
    specConfidence
  by_cases hrt : a.realTimeFlags.length ≠ 0
  · simp only [if_pos hrt, hnone, Option.getD_none, Int.cast_zero, Nat.cast_zero]
    have hW : (0 : ℚ) < (a.behavioralFlags.map (fun f => f.severity)).sum +
        (7/10 + 4/5 + 1/2 + 3/5 + 7/10) + 9/10 := by linarith
    rw [if_pos hW]
    have hS : (0 : ℚ) ≤
        (a.behavioralFlags.map (fun f => f.severity * f.severity)).sum +
        (a.statisticalScores.benfordScore * (7/10) +
         a.statisticalScores.velocityScore * (4/5) +
         a.statisticalScores.entropyScore * (1/2) +
         a.statisticalScores.clusteringScore * (3/5) +
         a.statisticalScores.temporalAnomaly * (7/10)) +
        (a.realTimeFlags.length : ℚ) * (1/5) * (9/10) := by positivity
    have hq : (0 : ℚ) ≤
        ((a.behavioralFlags.map (fun f => f.severity * f.severity)).sum +
         (a.statisticalScores.benfordScore * (7/10) +
          a.statisticalScores.velocityScore * (4/5) +
          a.statisticalScores.entropyScore * (1/2) +
          a.statisticalScores.clusteringScore * (3/5) +
          a.statisticalScores.temporalAnomaly * (7/10)) +
         (a.realTimeFlags.length : ℚ) * (1/5) * (9/10)) /
        ((a.behavioralFlags.map (fun f => f.severity)).sum +
         (7/10 + 4/5 + 1/2 + 3/5 + 7/10) + 9/10) :=
      div_nonneg hS (le_of_lt hW)
    rw [show ((a.behavioralFlags.map (fun f => f.severity * f.severity)).sum +
        ((7/10) * a.statisticalScores.benfordScore +
         (4/5) * a.statisticalScores.velocityScore +
         (1/2) * a.statisticalScores.entropyScore +
         (3/5) * a.statisticalScores.clusteringScore +
         (7/10) * a.statisticalScores.temporalAnomaly) +
        (9/10) * ((1/5) * (a.realTimeFlags.length : ℚ))) =
        ((a.behavioralFlags.map (fun f => f.severity * f.severity)).sum +
         (a.statisticalScores.benfordScore * (7/10) +
          a.statisticalScores.velocityScore * (4/5) +
          a.statisticalScores.entropyScore * (1/2) +
          a.statisticalScores.clusteringScore * (3/5) +
          a.statisticalScores.temporalAnomaly * (7/10)) +
         (a.realTimeFlags.length : ℚ) * (1/5) * (9/10)) from by ring]
    rw [max_eq_right (le_min hq zero_le_one)]
    refine Prod.ext rfl ?_
    ring
  · simp only [if_neg hrt, hnone, Option.getD_none, Int.cast_zero, Nat.cast_zero]
    have hW : (0 : ℚ) < (a.behavioralFlags.map (fun f => f.severity)).sum +
        (7/10 + 4/5 + 1/2 + 3/5 + 7/10) + 0 := by linarith
    rw [if_pos hW]
    have hS : (0 : ℚ) ≤
        (a.behavioralFlags.map (fun f => f.severity * f.severity)).sum +
        (a.statisticalScores.benfordScore * (7/10) +
         a.statisticalScores.velocityScore * (4/5) +
         a.statisticalScores.entropyScore * (1/2) +
         a.statisticalScores.clusteringScore * (3/5) +
         a.statisticalScores.temporalAnomaly * (7/10)) + 0 := by positivity
    have hq := div_nonneg hS (le_of_lt hW)
    rw [show ((a.behavioralFlags.map (fun f => f.severity * f.severity)).sum +
        ((7/10) * a.statisticalScores.benfordScore +
         (4/5) * a.statisticalScores.velocityScore +
         (1/2) * a.statisticalScores.entropyScore +
         (3/5) * a.statisticalScores.clusteringScore +
         (7/10) * a.statisticalScores.temporalAnomaly) + 0) =
        ((a.behavioralFlags.map (fun f => f.severity * f.severity)).sum +
         (a.statisticalScores.benfordScore * (7/10) +
          a.statisticalScores.velocityScore * (4/5) +
          a.statisticalScores.entropyScore * (1/2) +
          a.statisticalScores.clusteringScore * (3/5) +
          a.statisticalScores.temporalAnomaly * (7/10)) + 0) from by ring]
    rw [max_eq_right (le_min hq zero_le_one)]
    refine Prod.ext rfl ?_
    ring

/-- Witness for C1 (amended) at a sample analysis in the pre-aggregation
state, exercising every score contribution. -/
theorem c1_final_risk_score_witness :
    lookupTable aggrSample.detailedAnalysis "transaction_count" = none ∧
    (∀ f ∈ aggrSample.behavioralFlags, 0 ≤ f.severity) ∧
    calculateFinalRiskScore aggrSample =
      (clamp01 (specTotalWeightedScore aggrSample / specTotalWeight aggrSample),
       specConfidence aggrSample.behavioralFlags.length 0) :=
  ⟨rfl,
   by intro f hf; simp only [aggrSample, List.mem_singleton] at hf; rw [hf]; norm_num,
   c1_final_risk_score aggrSample rfl
     (by intro f hf; simp only [aggrSample, List.mem_singleton] at hf; rw [hf]; norm_num)
     (by norm_num [aggrSample]) (by norm_num [aggrSample])
     (by norm_num [aggrSample]) (by norm_num [aggrSample])
     (by norm_num [aggrSample])⟩

end WalletTracker
